import Mathlib

/-!
Shallow embedding of the codats repository (src/models.py and
src/load_datasets.py) and proofs about it.

Tensors are modelled as lists of rationals (rank 1) or lists of rows
(rank 2); machine floats are modelled as ℚ.  Framework-provided pieces
(the Keras cross-entropy loss objects) are not code of this repository,
so they enter as explicit function parameters of the definitions that
close over them in the Python source.
-/

namespace Codats

/-- A rank-1 tensor: a list of scalar entries. -/
abbrev Tensor1 := List ℚ

/-- A rank-2 tensor: a list of rows, all of the same length. -/
abbrev Tensor2 := List (List ℚ)

namespace Models

/-- Elementwise negation, tf.negative. -/
def tfNegative (t : Tensor1) : Tensor1 := t.map (fun v => -v)

/-- Broadcast multiplication of a tensor by a scalar. -/
def tfScalarMul (t : Tensor1) (c : ℚ) : Tensor1 := t.map (fun v => v * c)

/-- Elementwise multiplication of two same-shape tensors. -/
def tfMul (a b : Tensor1) : Tensor1 := a.zipWith (fun u v => u * v) b

/-- tf.ones_like: a tensor of ones with the shape of the argument. -/
def tfOnesLike (t : Tensor1) : Tensor1 := t.map (fun _ => 1)

/-- src/models.py flip_gradient: a @tf.custom_gradient function returning the
forward value together with the backward function.  The tf.cast of grl_lambda
to float32 is the identity in this model.  The backward function is
tf.negative(dy) * grl_lambda * tf.ones_like(x). -/
def flip_gradient (x : Tensor1) (grl_lambda : ℚ) : Tensor1 × (Tensor1 → Tensor1) :=
  (x, fun dy => tfMul (tfScalarMul (tfNegative dy) grl_lambda) (tfOnesLike x))

/-- src/models.py FlipGradient layer state: the global step variable and the
grl schedule function given to the constructor. -/
structure FlipGradient where
  global_step : ℕ
  grl_schedule : ℕ → ℚ

/-- FlipGradient.call: compute grl_lambda from the schedule at the current
global step, then apply flip_gradient to the inputs. -/
def FlipGradient.call (self : FlipGradient) (inputs : Tensor1) :
    Tensor1 × (Tensor1 → Tensor1) :=
  let grl_lambda := self.grl_schedule self.global_step
  flip_gradient inputs grl_lambda

/-- tf.slice on a rank-2 tensor: begin indices and sizes per dimension; a
size of -1 keeps everything from the begin index through the end of that
dimension. -/
def tfSlice2 (t : Tensor2) (beg0 beg1 : ℕ) (size0 size1 : Int) : Tensor2 :=
  let rows := if size0 = -1 then t.drop beg0 else (t.drop beg0).take size0.toNat
  rows.map (fun r => if size1 = -1 then r.drop beg1 else (r.drop beg1).take size1.toNat)

/-- The type of the framework loss tf.keras.losses.CategoricalCrossentropy /
BinaryCrossentropy instances applied to (y_true, y_pred): framework code,
outside this repository, hence abstract. -/
abbrev FrameworkLoss := Tensor2 → Tensor2 → ℚ

/-- src/models.py make_task_loss.  cce is the CategoricalCrossentropy
instance created in the factory; phase models K.learning_phase(), which
task_loss reads when its training argument is left at None.  When adapt
holds and the resolved training flag is true, both tensors are cut with
tf.slice to their first batch_size // 2 rows, batch_size being the number
of rows of y_pred. -/
def make_task_loss (cce : FrameworkLoss) (adapt : Bool) :
    Bool → Option Bool → Tensor2 → Tensor2 → ℚ :=
  fun phase training y_true y_pred =>
    let tr := match training with | some b => b | none => phase
    if adapt && tr then
      let batch_size : ℕ := y_pred.length
      let y_pred2 := tfSlice2 y_pred 0 0 ((batch_size / 2 : ℕ) : Int) (-1)
      let y_true2 := tfSlice2 y_true 0 0 ((batch_size / 2 : ℕ) : Int) (-1)
      cce y_true2 y_pred2
    else
      cce y_true y_pred

/-- src/models.py make_weighted_loss: the framework cross-entropy applied
with the given sample weights (a three-argument framework call, so the
framework loss here also takes the weights). -/
def make_weighted_loss (cce : Tensor2 → Tensor2 → Tensor1 → ℚ) :
    Tensor2 → Tensor2 → Tensor1 → Option Bool → ℚ :=
  fun y_true y_pred weights _training => cce y_true y_pred weights

/-- src/models.py make_domain_loss.  When use_domain_loss holds, the factory
returns the framework BinaryCrossentropy(from_logits=True) applied to the
pair; otherwise the returned function yields the literal 0 regardless of its
inputs. -/
def make_domain_loss (bce : FrameworkLoss) (use_domain_loss : Bool) :
    Tensor2 → Tensor2 → ℚ :=
  if use_domain_loss then
    fun y_true y_pred => bce y_true y_pred
  else
    fun _y_true _y_pred => 0

/-- src/models.py make_mapping_loss: the framework
BinaryCrossentropy(from_logits=True) applied to the pair. -/
def make_mapping_loss (bce : FrameworkLoss) : Tensor2 → Tensor2 → ℚ :=
  fun y_true y_pred => bce y_true y_pred

/-- One Keras layer as constructed in src/models.py, recorded by constructor
and the arguments written at the construction site.  Activations appear by
their string names; optional arguments left at their Keras defaults are
recorded at those defaults (Dense: no activation, use_bias true;
BatchNormalization: momentum 99/100). -/
inductive Layer where
  | dense (units : ℕ) (activation : Option String) (use_bias : Bool)
  | batchNormalization (momentum : ℚ)
  | activation (name : String)
  | dropout (rate : ℚ)
  | conv2d (filters : ℕ) (kernel strides : ℕ × ℕ) (padding : String)
      (activation : Option String)
  | maxPool2d (pool strides : ℕ × ℕ) (padding : String)
  | flatten
  | relu
  | leakyRelu (alpha : ℚ)
  | gaussianNoise (stddev : ℚ)
  | globalAvgPool2d
  | flipGradientLayer
  | resnetBlockLayer (units : ℕ) (rate : ℚ) (layers : ℕ)
  | sequential (layers : List Layer)
  | resnet50Backbone (include_top : Bool) (pooling : String)

/-- src/models.py make_dense_bn_dropout: Dense without bias,
BatchNormalization, relu activation and Dropout as one Sequential. -/
def make_dense_bn_dropout (units : ℕ) (rate : ℚ) : Layer :=
  .sequential [.dense units none false, .batchNormalization (99/100),
    .activation "relu", .dropout rate]

/-- src/models.py make_vrada_model.  rate is the value of the --dropout
flag the factory reads; global_step and grl_schedule only feed the
FlipGradient layer's runtime state (modelled by FlipGradient above), so the
returned layer stacks do not depend on them. -/
def make_vrada_model (num_classes : ℕ) (rate : ℚ) :
    List Layer × List Layer × List Layer :=
  let fe_layers := 5
  let task_layers := 1
  let domain_layers := 2
  let resnet_layers := 2
  let units := 50
  let make_classifier := fun (layers num_outputs : ℕ) =>
    Layer.sequential ((List.range (layers - 1)).map
        (fun _ => make_dense_bn_dropout units rate)
      ++ [.dense num_outputs none true, .activation "softmax"])
  let make_binary_classifier := fun (layers : ℕ) =>
    Layer.sequential ((List.range (layers - 1)).map
        (fun _ => make_dense_bn_dropout units rate)
      ++ [.dense 1 none true])
  let feature_extractor :=
    [Layer.flatten, Layer.batchNormalization (999/1000)]
      ++ (List.range resnet_layers).map (fun _ => make_dense_bn_dropout units rate)
      ++ (List.range (fe_layers - 1)).map
          (fun _ => Layer.resnetBlockLayer units rate resnet_layers)
  let task_classifier := [make_classifier task_layers num_classes]
  let domain_classifier := [Layer.flipGradientLayer, make_binary_classifier domain_layers]
  (feature_extractor, task_classifier, domain_classifier)

/-- src/models.py make_dann_mnist_model: Figure 4(a) MNIST architecture. -/
def make_dann_mnist_model (num_classes : ℕ) :
    List Layer × List Layer × List Layer :=
  ([.conv2d 32 (5, 5) (1, 1) "valid" (some "relu"),
    .maxPool2d (2, 2) (2, 2) "valid",
    .conv2d 48 (5, 5) (1, 1) "valid" (some "relu"),
    .maxPool2d (2, 2) (2, 2) "valid",
    .flatten],
   [.dense 100 (some "relu") true,
    .dense 100 (some "relu") true,
    .dense num_classes (some "softmax") true],
   [.flipGradientLayer,
    .dense 100 (some "relu") true,
    .dense 1 none true])

/-- src/models.py make_dann_svhn_model: Figure 4(b) SVHN architecture; rate
is the value of the --dropout flag. -/
def make_dann_svhn_model (num_classes : ℕ) (rate : ℚ) :
    List Layer × List Layer × List Layer :=
  ([.conv2d 64 (5, 5) (1, 1) "same" none,
    .batchNormalization (99/100),
    .relu,
    .maxPool2d (3, 3) (2, 2) "same",
    .dropout rate,
    .conv2d 64 (5, 5) (1, 1) "same" none,
    .batchNormalization (99/100),
    .relu,
    .maxPool2d (3, 3) (2, 2) "same",
    .dropout rate,
    .conv2d 128 (5, 5) (1, 1) "same" none,
    .batchNormalization (99/100),
    .relu,
    .flatten],
   [.dense 3072 none true,
    .batchNormalization (99/100),
    .relu,
    .dropout rate,
    .dense 2048 none true,
    .batchNormalization (99/100),
    .relu,
    .dropout rate,
    .dense num_classes (some "softmax") true],
   [.flipGradientLayer,
    .dense 1024 none true,
    .batchNormalization (99/100),
    .relu,
    .dropout rate,
    .dense 1024 none true,
    .batchNormalization (99/100),
    .relu,
    .dropout rate,
    .dense 1 none true])

/-- src/models.py make_dann_gtsrb_model: Figure 4(c) architecture. -/
def make_dann_gtsrb_model (num_classes : ℕ) :
    List Layer × List Layer × List Layer :=
  ([.conv2d 96 (5, 5) (1, 1) "valid" (some "relu"),
    .maxPool2d (2, 2) (2, 2) "valid",
    .conv2d 144 (3, 3) (1, 1) "valid" (some "relu"),
    .maxPool2d (2, 2) (2, 2) "valid",
    .conv2d 256 (5, 5) (1, 1) "valid" (some "relu"),
    .maxPool2d (2, 2) (2, 2) "valid",
    .flatten],
   [.dense 512 (some "relu") true,
    .dense num_classes (some "softmax") true],
   [.flipGradientLayer,
    .dense 1024 (some "relu") true,
    .dense 1024 (some "relu") true,
    .dense 1 none true])

/-- src/models.py make_vada_model's conv_blocks helper: three Conv2D /
BatchNormalization / LeakyReLU groups of the given depth. -/
def vada_conv_blocks (depth : ℕ) : List Layer :=
  [.conv2d depth (3, 3) (1, 1) "same" none,
   .batchNormalization (99/100),
   .leakyRelu (1/10),
   .conv2d depth (3, 3) (1, 1) "same" none,
   .batchNormalization (99/100),
   .leakyRelu (1/10),
   .conv2d depth (3, 3) (1, 1) "same" none,
   .batchNormalization (99/100),
   .leakyRelu (1/10)]

/-- src/models.py make_vada_model's pool_blocks helper. -/
def vada_pool_blocks : List Layer :=
  [.maxPool2d (2, 2) (2, 2) "same",
   .dropout (1/2),
   .gaussianNoise 1]

/-- src/models.py make_vada_model: Table 6 small/large CNN. -/
def make_vada_model (num_classes : ℕ) (small : Bool) :
    List Layer × List Layer × List Layer :=
  (vada_conv_blocks (if small then 64 else 96)
    ++ vada_pool_blocks
    ++ vada_conv_blocks (if small then 64 else 192)
    ++ vada_pool_blocks,
   vada_conv_blocks (if small then 64 else 192)
    ++ [.globalAvgPool2d,
        .flatten,
        .dense num_classes (some "softmax") true],
   [.flipGradientLayer,
    .flatten,
    .dense 100 none true,
    .batchNormalization (99/100),
    .relu,
    .dense 1 none true])

/-- src/models.py make_resnet50_model: pretrained ResNet50 backbone. -/
def make_resnet50_model (num_classes : ℕ) :
    List Layer × List Layer × List Layer :=
  ([.resnet50Backbone false "avg"],
   [.flatten,
    .dense num_classes (some "softmax") true],
   [.flipGradientLayer,
    .flatten,
    .dense 1 none true])

/-- The fixed catalog of model names, src/models.py `models`. -/
def models : List String :=
  ["flat", "dann_mnist", "dann_svhn", "dann_gtsrb", "vada_small", "vada_large",
   "resnet50"]

/-- src/models.py names(): all the available models for use in
DomainAdaptationModel(). -/
def names : List String := models

/-- The four layer stacks stored on a constructed DomainAdaptationModel:
the factory triple plus the target classifier, which clone_model copies
from the task classifier. -/
structure DomainAdaptationModelArch where
  feature_extractor : List Layer
  task_classifier : List Layer
  domain_classifier : List Layer
  target_classifier : List Layer

/-- src/models.py DomainAdaptationModel.__init__: dispatch on model_name
over the fixed catalog, raising NotImplementedError("Model name: " + name)
for anything else.  use_grl only selects the grl schedule (runtime gradient
scaling through the FlipGradient layer state), which does not enter the
stored layer stacks, so global_step, num_steps and use_grl do not affect
the architecture; rate is the value of the --dropout flag read by the
factories. -/
def DomainAdaptationModelInit (num_classes : ℕ) (model_name : String)
    (global_step num_steps : ℕ) (use_grl : Bool) (rate : ℚ) :
    Except String DomainAdaptationModelArch :=
  let triple : Except String (List Layer × List Layer × List Layer) :=
    if model_name = "flat" then .ok (make_vrada_model num_classes rate)
    else if model_name = "dann_mnist" then .ok (make_dann_mnist_model num_classes)
    else if model_name = "dann_svhn" then .ok (make_dann_svhn_model num_classes rate)
    else if model_name = "dann_gtsrb" then .ok (make_dann_gtsrb_model num_classes)
    else if model_name = "vada_small" then .ok (make_vada_model num_classes true)
    else if model_name = "vada_large" then .ok (make_vada_model num_classes false)
    else if model_name = "resnet50" then .ok (make_resnet50_model num_classes)
    else .error ("Model name: " ++ model_name)
  match triple with
  | .ok (fe, task, domain) => .ok ⟨fe, task, domain, task⟩
  | .error e => .error e

/-- A Keras sub-model as DomainAdaptationModel.call uses one: a function of
the global learning phase and the input, together with its trainable
variables (modelled by their names). -/
structure KerasNet where
  call : Bool → Tensor1 → Tensor1
  trainable_variables : List String

/-- The components stored on a DomainAdaptationModel, as functions: feature
extractor, task and domain classifiers, and the target classifier cloned
from the task classifier. -/
structure DomainAdaptationModel where
  feature_extractor : KerasNet
  task_classifier : KerasNet
  domain_classifier : KerasNet
  target_classifier : KerasNet

/-- src/models.py DomainAdaptationModel.trainable_variables_task. -/
def DomainAdaptationModel.trainable_variables_task
    (self : DomainAdaptationModel) : List String :=
  self.feature_extractor.trainable_variables
    ++ self.task_classifier.trainable_variables

/-- src/models.py DomainAdaptationModel.trainable_variables_task_domain. -/
def DomainAdaptationModel.trainable_variables_task_domain
    (self : DomainAdaptationModel) : List String :=
  self.feature_extractor.trainable_variables
    ++ self.task_classifier.trainable_variables
    ++ self.domain_classifier.trainable_variables

/-- src/models.py DomainAdaptationModel.trainable_variables_target. -/
def DomainAdaptationModel.trainable_variables_target
    (self : DomainAdaptationModel) : List String :=
  self.feature_extractor.trainable_variables
    ++ self.target_classifier.trainable_variables

/-- src/models.py DomainAdaptationModel.call: update the global learning
phase from the training argument when one is given, run the feature
extractor once on the inputs, the domain classifier on the features, and
the task or target classifier on the same features depending on target;
the returned pair is (task, domain), alongside the new learning phase. -/
def DomainAdaptationModel.call (self : DomainAdaptationModel)
    (inputs : Tensor1) (target : Bool) (training : Option Bool)
    (phase : Bool) : (Tensor1 × Tensor1) × Bool :=
  let phase2 := match training with | some b => b | none => phase
  let fe := self.feature_extractor.call phase2 inputs
  let domain := self.domain_classifier.call phase2 fe
  let task := if target then self.target_classifier.call phase2 fe
    else self.task_classifier.call phase2 fe
  ((task, domain), phase2)

/-- The CycleGAN components stored by its constructor, as functions taking
the keras training argument (None, True or False) that CycleGAN.call passes
to each of them. -/
structure CycleGAN where
  source_to_target : Option Bool → Tensor1 → Tensor1
  target_to_source : Option Bool → Tensor1 → Tensor1
  source_discriminator : Option Bool → Tensor1 → Tensor1
  target_discriminator : Option Bool → Tensor1 → Tensor1
  source_pre : Option Bool → Tensor1 → Tensor1
  target_pre : Option Bool → Tensor1 → Tensor1

/-- src/models.py CycleGAN.call: for dest = "target", normalize the input
with source_pre, translate with source_to_target, normalize the fake output
with target_pre at training=False, translate back with target_to_source,
and return the two translations with the source discriminator on the
normalized real input and the target discriminator on the normalized fake
output; dest = "source" is the symmetric pass; any other dest raises
NotImplementedError. -/
def CycleGAN.call (self : CycleGAN) (inputs : Tensor1) (dest : String)
    (training : Option Bool) :
    Except String (Tensor1 × Tensor1 × Tensor1 × Tensor1) :=
  if dest = "target" then
    let x_a := inputs
    let x_a_norm := self.source_pre training x_a
    let gen_AtoB := self.source_to_target training x_a_norm
    let x_b_fake_norm := self.target_pre (some false) gen_AtoB
    let gen_AtoBtoA := self.target_to_source training x_b_fake_norm
    let disc_Areal := self.source_discriminator training x_a_norm
    let disc_Bfake := self.target_discriminator training x_b_fake_norm
    .ok (gen_AtoB, gen_AtoBtoA, disc_Areal, disc_Bfake)
  else if dest = "source" then
    let x_b := inputs
    let x_b_norm := self.target_pre training x_b
    let gen_BtoA := self.target_to_source training x_b_norm
    let x_a_fake_norm := self.source_pre (some false) gen_BtoA
    let gen_BtoAtoB := self.source_to_target training x_a_fake_norm
    let disc_Breal := self.target_discriminator training x_b_norm
    let disc_Afake := self.source_discriminator training x_a_fake_norm
    .ok (gen_BtoA, gen_BtoAtoB, disc_Breal, disc_Afake)
  else
    .error "dest can only be either source or target"

/-- An identity component, used to instantiate CycleGAN concretely. -/
def idNet : Option Bool → Tensor1 → Tensor1 := fun _training t => t

end Models

namespace LoadDatasets

/-- tf.shape(x)[0] of a rank-2 tensor: the number of rows. -/
def shape0 (t : Tensor2) : ℕ := t.length

/-- tf.shape(x)[1] of a rank-2 tensor: the row length.  Tensors are
rectangular, so this is the length of the first row, 0 when there are no
rows. -/
def shape1 (t : Tensor2) : ℕ :=
  match t with
  | [] => 0
  | r :: _ => r.length

/-- Rectangularity: every row has the common row length, as tf tensors do. -/
abbrev Rect (t : Tensor2) : Prop := ∀ r ∈ t, r.length = shape1 t

/-- src/load_datasets.py _parse_example_function, after x and y have been
decoded from the serialized example: when the trim_time_steps flag is
nonzero, tf.slice x to its first min(time_steps, trim_time_steps) rows over
all features, then, when the feature_subset flag is nonzero, tf.slice to
all remaining rows over the first min(features, feature_subset) features;
y passes through untouched.  The two flags are the nonnegative integer
command line values, 0 (their default) meaning no trimming. -/
def parse_example_function (trim_time_steps feature_subset : ℕ)
    (x : Tensor2) (y : Tensor1) : Tensor2 × Tensor1 :=
  let x1 := if trim_time_steps ≠ 0 then
      Models.tfSlice2 x 0 0 ((min (shape0 x) trim_time_steps : ℕ) : Int)
        ((shape1 x : ℕ) : Int)
    else x
  let x2 := if feature_subset ≠ 0 then
      Models.tfSlice2 x1 0 0 ((shape0 x1 : ℕ) : Int)
        ((min (shape1 x1) feature_subset : ℕ) : Int)
    else x1
  (x2, y)

/-- The per-dataset configuration fields stored on a Dataset in __init__,
after the None arguments have been resolved against the command line flag
defaults. -/
structure Config where
  train_batch : ℕ
  eval_batch : ℕ
  shuffle_buffer : ℕ
  prefetch_buffer : ℕ
  eval_shuffle_seed : ℕ
  eval_max_examples : ℕ
  tune_num_parallel_calls : Bool

/-- The command line flag defaults of src/load_datasets.py: train_batch 128,
eval_batch 4096, shuffle_buffer 60000, prefetch_buffer 1,
eval_shuffle_seed 0, eval_max_examples 0, tune_num_parallel_calls False. -/
def default_config : Config := ⟨128, 4096, 60000, 1, 0, 0, false⟩

/-- A tf.data pipeline, recorded as the chain of dataset operations that
load_tfrecords applies to the interleaved tfrecord files. -/
inductive Pipeline where
  | interleave (filenames : List String)
  | take (n : ℕ) (p : Pipeline)
  | shuffle (buffer : ℕ) (seed : Option ℕ) (p : Pipeline)
  | repeated (p : Pipeline)
  | mapParse (tune_parallel : Bool) (p : Pipeline)
  | batch (n : ℕ) (p : Pipeline)
  | prefetch (autotune : Bool) (buffer : ℕ) (p : Pipeline)

/-- src/load_datasets.py Dataset.load_tfrecords: None on an empty filename
list; otherwise the interleaved record files, with the eval_max_examples
take when evaluating, no shuffle when counting, a seeded shuffle when
evaluating and a shuffle-and-repeat otherwise, then the parse map, batching
and prefetching (autotuned when the prefetch_buffer flag is 0). -/
def load_tfrecords (self : Config) (filenames : List String) (batch_size : ℕ)
    (count evaluation : Bool) : Option Pipeline :=
  if filenames.length = 0 then
    none
  else
    let dataset0 := Pipeline.interleave filenames
    let dataset1 :=
      if evaluation ∧ self.eval_max_examples ≠ 0 then
        Pipeline.take self.eval_max_examples dataset0
      else dataset0
    let dataset2 :=
      if count then dataset1
      else if evaluation then
        Pipeline.shuffle self.shuffle_buffer (some self.eval_shuffle_seed) dataset1
      else
        Pipeline.repeated (Pipeline.shuffle self.shuffle_buffer none dataset1)
    let dataset3 := Pipeline.mapParse self.tune_num_parallel_calls dataset2
    let dataset4 := Pipeline.batch batch_size dataset3
    some (Pipeline.prefetch (self.prefetch_buffer = 0) self.prefetch_buffer dataset4)

/-- src/load_datasets.py Dataset.load_dataset: the train pipeline at the
train batch size, and the train/test evaluation pipelines at the eval batch
size. -/
def load_dataset (self : Config) (train_filenames test_filenames : List String) :
    Option Pipeline × Option Pipeline × Option Pipeline :=
  (load_tfrecords self train_filenames self.train_batch false false,
   load_tfrecords self train_filenames self.eval_batch false true,
   load_tfrecords self test_filenames self.eval_batch false true)

/-- The fields a constructed Dataset stores (src/load_datasets.py
Dataset.__init__ after its asserts and flag resolution). -/
structure Dataset where
  invert_name : Option String
  num_classes : ℕ
  class_labels : List String
  num_domains : ℕ
  config : Config
  train : Option Pipeline
  train_evaluation : Option Pipeline
  test_evaluation : Option Pipeline

/-- src/load_datasets.py Dataset.__init__ with the optional batching and
buffer arguments already resolved to a Config.  The num_classes sanity
assert and the inversions-table asserts become errors; the inversions
tables (datasets.inversions.map_to_source / map_to_target) are external to
the repository sources here, so their membership tests enter as
predicates. -/
def mkDataset (has_map_to_source has_map_to_target : String → Bool)
    (num_classes : ℕ) (class_labels : List String) (num_domains : ℕ)
    (train_filenames test_filenames : List String)
    (invert_name : Option String) (config : Config) :
    Except String Dataset :=
  if num_classes ≠ class_labels.length then
    .error "num_classes != len(class_labels)"
  else if (match invert_name with
      | some n => !(has_map_to_source n)
      | none => false) then
    .error "If invertible, must specify map_to_source() in datasets.inversions"
  else if (match invert_name with
      | some n => !(has_map_to_target n)
      | none => false) then
    .error "If invertible, must specify map_to_target() in datasets.inversions"
  else
    let loaded := load_dataset config train_filenames test_filenames
    .ok ⟨invert_name, num_classes, class_labels, num_domains, config,
      loaded.1, loaded.2.1, loaded.2.2⟩

/-- src/load_datasets.py Dataset.label_to_int: Python list.index, the first
index holding the label, an error (None here) when the label is absent. -/
def Dataset.label_to_int (self : Dataset) (label_name : String) : Option ℕ :=
  self.class_labels.indexOf? label_name

/-- src/load_datasets.py Dataset.int_to_label: Python list indexing, an
error (None here) when the index is out of range. -/
def Dataset.int_to_label (self : Dataset) (label_index : ℕ) : Option String :=
  self.class_labels.get? label_index

/-- src/load_datasets.py load's _path helper: the one-element list holding
datasets/filename when that file exists, the empty list otherwise; the
filesystem enters as the path_exists predicate. -/
def load_path (path_exists : String → Bool) (filename : String) : List String :=
  let fn := "datasets/" ++ filename
  if path_exists fn then [fn] else []

/-- One entry of the external datasets registry (datasets.datasets): class
count, class labels and invertibility of a named dataset. -/
structure DatasetInfo where
  num_classes : ℕ
  class_labels : List String
  invertible : Bool

/-- src/load_datasets.py load: look the dataset up in the registry (the
assert on datasets.datasets membership becomes the None case), build the
train/valid/test tfrecord filename lists through load_path, use the
validation files as the "test" data unless test is set, in which case the
validation files instead join the training files, and construct the
Dataset.  The registry, the tfrecord_filename naming scheme, the
filesystem and the inversions tables are external to src and enter as
parameters. -/
def load (registry : String → Option DatasetInfo)
    (tfrecord_filename : String → String → String)
    (path_exists : String → Bool)
    (has_map_to_source has_map_to_target : String → Bool)
    (dataset_name : String) (num_domains : ℕ) (test : Bool)
    (config : Config) : Except String Dataset :=
  match registry dataset_name with
  | none => .error (dataset_name ++ " not a supported dataset")
  | some info =>
    let train_filenames := load_path path_exists (tfrecord_filename dataset_name "train")
    let valid_filenames := load_path path_exists (tfrecord_filename dataset_name "valid")
    let test_filenames := load_path path_exists (tfrecord_filename dataset_name "test")
    let train_filenames2 :=
      if test then train_filenames ++ valid_filenames else train_filenames
    let test_filenames2 :=
      if test then test_filenames else valid_filenames
    let invert_name := if info.invertible then some dataset_name else none
    mkDataset has_map_to_source has_map_to_target info.num_classes
      info.class_labels num_domains train_filenames2 test_filenames2
      invert_name config

/-- Python membership of an optional string in a list of strings, as in
`target in valid_names`: None compares unequal to every string of the
list, so None is never a member. -/
def optMem (target : Option String) (xs : List String) : Bool :=
  match target with
  | some t => xs.contains t
  | none => false

/-- src/load_datasets.py load_da: build the full source and target domain
names, count the domains, assert every source and the target are valid
names, then load the sources and, when a target was given, the target,
asserting its class count agrees with every source.  valid_names is the
names() list (datasets.names(), external); the remaining external pieces
are as in load. -/
def load_da (registry : String → Option DatasetInfo)
    (tfrecord_filename : String → String → String)
    (path_exists : String → Bool)
    (has_map_to_source has_map_to_target : String → Bool)
    (valid_names : List String)
    (dataset sources : String) (target : Option String)
    (test : Bool) (config : Config) :
    Except String (List Dataset × Option Dataset) :=
  let sources2 := (sources.splitOn ",").map (fun x => dataset ++ "_" ++ x)
  let target2 := target.map (fun t => dataset ++ "_" ++ t)
  let num_domains := sources2.length + (if target2.isSome then 1 else 0)
  if ¬ sources2.all (fun s => valid_names.contains s) then
    .error "unknown source domain"
  else if ¬ optMem target2 valid_names then
    .error "unknown target domain"
  else
    match sources2.mapM (fun s =>
        load registry tfrecord_filename path_exists has_map_to_source
          has_map_to_target s num_domains test config) with
    | .error e => .error e
    | .ok source_datasets =>
      match target2 with
      | some t =>
        match load registry tfrecord_filename path_exists has_map_to_source
            has_map_to_target t num_domains test config with
        | .error e => .error e
        | .ok target_dataset =>
          if ¬ source_datasets.all
              (fun s => s.num_classes == target_dataset.num_classes) then
            .error "Adapting from source to target with different classes not supported"
          else
            .ok (source_datasets, some target_dataset)
      | none => .ok (source_datasets, none)

/-- A concrete two-class dataset record, used to instantiate theorems. -/
def sample_dataset : Dataset :=
  ⟨none, 2, ["a", "b"], 1, default_config, none, none, none⟩

end LoadDatasets

end Codats

namespace Codats

namespace Models

/-- Slicing from the origin with a nonnegative row count and size -1 in the
column dimension is List.take on the rows. -/
theorem tfSlice2_take (t : Tensor2) (s : Int) (hs : 0 ≤ s) :
    tfSlice2 t 0 0 s (-1) = t.take s.toNat := by
  unfold tfSlice2
  rw [if_neg (by omega)]
  simp

/-- C1: flip_gradient is the identity on the forward pass; on the backward
pass it maps an incoming gradient dy of the same shape as x to -dy * lambda
elementwise; and the FlipGradient layer calls flip_gradient with lambda equal
to the schedule applied to the current global step. -/
theorem c1_flip_gradient (x dy : Tensor1) (lam : ℚ) (layer : FlipGradient)
    (h : dy.length = x.length) :
    (flip_gradient x lam).1 = x ∧
    (flip_gradient x lam).2 dy = dy.map (fun d => -d * lam) ∧
    layer.call x = flip_gradient x (layer.grl_schedule layer.global_step) := by
  refine ⟨rfl, ?_, rfl⟩
  show tfMul (tfScalarMul (tfNegative dy) lam) (tfOnesLike x) = dy.map (fun d => -d * lam)
  induction dy generalizing x with
  | nil => simp [tfMul, tfScalarMul, tfNegative, tfOnesLike]
  | cons d ds ih =>
    cases x with
    | nil => simp at h
    | cons a as =>
      simp only [tfMul, tfScalarMul, tfNegative, tfOnesLike, List.map_cons,
        List.zipWith_cons_cons, List.map] at ih ⊢
      refine congrArg₂ (· :: ·) (by ring) ?_
      exact ih as (by simpa using h)

/-- Closed instance of c1_flip_gradient with its shape hypothesis discharged. -/
theorem c1_flip_gradient_witness :
    ([10, 20] : Tensor1).length = ([1, 2] : Tensor1).length ∧
    ((flip_gradient [1, 2] 3).1 = [1, 2] ∧
     (flip_gradient [1, 2] 3).2 [10, 20] = ([10, 20] : Tensor1).map (fun d => -d * 3) ∧
     (FlipGradient.mk 7 (fun _ => 3)).call [1, 2] =
       flip_gradient [1, 2] ((FlipGradient.mk 7 (fun _ => 3)).grl_schedule
         (FlipGradient.mk 7 (fun _ => 3)).global_step)) :=
  ⟨rfl, c1_flip_gradient [1, 2] [10, 20] 3 ⟨7, fun _ => 3⟩ rfl⟩

/-- C2: the loss from make_task_loss(adapt) equals the framework categorical
cross-entropy restricted to the first floor(n/2) rows of y_true and y_pred
when adapt holds and the resolved training flag is true, and the framework
cross-entropy on the full batch in every other case. -/
theorem c2_make_task_loss (cce : FrameworkLoss) (adapt phase : Bool)
    (training : Option Bool) (y_true y_pred : Tensor2)
    (h : y_true.length = y_pred.length) :
    make_task_loss cce adapt phase training y_true y_pred =
      if adapt && (match training with | some b => b | none => phase) then
        cce (y_true.take (y_pred.length / 2)) (y_pred.take (y_pred.length / 2))
      else
        cce y_true y_pred := by
  unfold make_task_loss
  rcases hc : adapt && (match training with | some b => b | none => phase) with _ | _
  · simp [hc]
  · simp only [hc, eq_self_iff_true, if_true]
    rw [tfSlice2_take _ _ (by positivity), tfSlice2_take _ _ (by positivity)]
    simp only [Int.toNat_natCast]

/-- Closed instance of c2_make_task_loss with its shape hypothesis
discharged. -/
theorem c2_make_task_loss_witness :
    ([[1, 0], [0, 1]] : Tensor2).length = ([[2, 3], [4, 5]] : Tensor2).length ∧
    (make_task_loss (fun a b => (a.length : ℚ) + b.length) true true none
        [[1, 0], [0, 1]] [[2, 3], [4, 5]] =
      if true && true then
        ((fun (a b : Tensor2) => (a.length : ℚ) + b.length)
          (([[1, 0], [0, 1]] : Tensor2).take (([[2, 3], [4, 5]] : Tensor2).length / 2))
          (([[2, 3], [4, 5]] : Tensor2).take (([[2, 3], [4, 5]] : Tensor2).length / 2)))
      else
        (fun (a b : Tensor2) => (a.length : ℚ) + b.length)
          [[1, 0], [0, 1]] [[2, 3], [4, 5]]) :=
  ⟨rfl, c2_make_task_loss (fun a b => (a.length : ℚ) + b.length) true true none
    [[1, 0], [0, 1]] [[2, 3], [4, 5]] rfl⟩

/-- C3 as stated: every loss factory output defers to the framework
cross-entropy; in particular make_domain_loss computes binary cross-entropy
of (y_true, y_pred) for both values of use_domain_loss.  False: with
use_domain_loss = false the returned function is constantly 0 and ignores
the framework loss entirely. -/
theorem c3_counterexample :
    ¬ ∀ (bce : FrameworkLoss) (use_domain_loss : Bool) (y_true y_pred : Tensor2),
        make_domain_loss bce use_domain_loss y_true y_pred = bce y_true y_pred := by
  intro h
  have h0 := h (fun _ _ => 1) false [] []
  simp [make_domain_loss] at h0

/-- C3 amended: the losses from make_task_loss, make_weighted_loss and
make_mapping_loss defer to the framework cross-entropy for all inputs, and
make_domain_loss defers to the framework binary cross-entropy when
use_domain_loss is true; when use_domain_loss is false the returned domain
loss is the constant 0 for every input pair. -/
theorem c3_loss_factories (cce : FrameworkLoss)
    (cceW : Tensor2 → Tensor2 → Tensor1 → ℚ) (bce : FrameworkLoss)
    (adapt phase : Bool) (training : Option Bool)
    (y_true y_pred : Tensor2) (weights : Tensor1) :
    (∃ a b, make_task_loss cce adapt phase training y_true y_pred = cce a b) ∧
    make_weighted_loss cceW y_true y_pred weights training = cceW y_true y_pred weights ∧
    make_mapping_loss bce y_true y_pred = bce y_true y_pred ∧
    make_domain_loss bce true y_true y_pred = bce y_true y_pred ∧
    make_domain_loss bce false y_true y_pred = 0 := by
  refine ⟨?_, rfl, rfl, rfl, rfl⟩
  unfold make_task_loss
  rcases hc : adapt && (match training with | some b => b | none => phase) with _ | _
  · exact ⟨y_true, y_pred, by simp [hc]⟩
  · refine ⟨tfSlice2 y_true 0 0 ((y_pred.length / 2 : ℕ) : Int) (-1),
      tfSlice2 y_pred 0 0 ((y_pred.length / 2 : ℕ) : Int) (-1), ?_⟩
    simp only [hc, eq_self_iff_true, if_true]

/-- C4: DomainAdaptationModel construction succeeds, storing a
feature-extractor / task-classifier / domain-classifier triple, for exactly
the model names of the catalog returned by names(); every other name raises
NotImplementedError. -/
theorem c4_model_catalog (num_classes global_step num_steps : ℕ)
    (use_grl : Bool) (rate : ℚ) :
    names = models ∧
    (∀ model_name ∈ models, ∃ fe task domain,
      DomainAdaptationModelInit num_classes model_name global_step num_steps
          use_grl rate = .ok ⟨fe, task, domain, task⟩) ∧
    (∀ model_name, model_name ∉ models →
      DomainAdaptationModelInit num_classes model_name global_step num_steps
          use_grl rate = .error ("Model name: " ++ model_name)) := by
  refine ⟨rfl, ?_, ?_⟩
  · intro model_name hmem
    simp only [models, List.mem_cons, List.not_mem_nil, or_false] at hmem
    rcases hmem with rfl | rfl | rfl | rfl | rfl | rfl | rfl <;>
      exact ⟨_, _, _, rfl⟩
  · intro model_name hmem
    simp only [models, List.mem_cons, List.not_mem_nil, or_false, not_or] at hmem
    obtain ⟨h1, h2, h3, h4, h5, h6, h7⟩ := hmem
    simp [DomainAdaptationModelInit, h1, h2, h3, h4, h5, h6, h7]

/-- Closed instance of c4_model_catalog: a catalog name constructs, a name
outside the catalog errors. -/
theorem c4_model_catalog_witness :
    ("flat" ∈ models ∧ ∃ fe task domain,
      DomainAdaptationModelInit 3 "flat" 0 10 false (1/20) =
        .ok ⟨fe, task, domain, task⟩) ∧
    ("unknown" ∉ models ∧
      DomainAdaptationModelInit 3 "unknown" 0 10 false (1/20) =
        .error ("Model name: " ++ "unknown")) :=
  ⟨⟨by decide, (c4_model_catalog 3 0 10 false (1/20)).2.1 "flat" (by decide)⟩,
   ⟨by decide, (c4_model_catalog 3 0 10 false (1/20)).2.2 "unknown" (by decide)⟩⟩

/-- C5: DomainAdaptationModel.call returns the pair (task, domain), both
classifier outputs computed from the same extracted features, with the task
slot served by the target classifier exactly when target is true; and the
three grouped trainable-variable properties are the stated concatenations
of component variables. -/
theorem c5_call_and_grouped_variables (m : DomainAdaptationModel)
    (inputs : Tensor1) (target : Bool) (training : Option Bool)
    (phase : Bool) :
    (m.call inputs target training phase).1 =
      (let phase2 := match training with | some b => b | none => phase
       let f := m.feature_extractor.call phase2 inputs
       ((if target then m.target_classifier.call phase2 f
         else m.task_classifier.call phase2 f),
        m.domain_classifier.call phase2 f)) ∧
    m.trainable_variables_task =
      m.feature_extractor.trainable_variables
        ++ m.task_classifier.trainable_variables ∧
    m.trainable_variables_task_domain =
      m.feature_extractor.trainable_variables
        ++ m.task_classifier.trainable_variables
        ++ m.domain_classifier.trainable_variables ∧
    m.trainable_variables_target =
      m.feature_extractor.trainable_variables
        ++ m.target_classifier.trainable_variables :=
  ⟨rfl, rfl, rfl, rfl⟩

/-- C6: CycleGAN.call to dest = "target" is the source-to-target round trip
with its two discriminator outputs; dest = "source" is the symmetric pass;
any other dest raises NotImplementedError. -/
theorem c6_cyclegan_call (self : CycleGAN) (x : Tensor1)
    (training : Option Bool) (dest : String)
    (h1 : dest ≠ "source") (h2 : dest ≠ "target") :
    (self.call x "target" training =
      .ok (self.source_to_target training (self.source_pre training x),
           self.target_to_source training
             (self.target_pre (some false)
               (self.source_to_target training (self.source_pre training x))),
           self.source_discriminator training (self.source_pre training x),
           self.target_discriminator training
             (self.target_pre (some false)
               (self.source_to_target training (self.source_pre training x))))) ∧
    (self.call x "source" training =
      .ok (self.target_to_source training (self.target_pre training x),
           self.source_to_target training
             (self.source_pre (some false)
               (self.target_to_source training (self.target_pre training x))),
           self.target_discriminator training (self.target_pre training x),
           self.source_discriminator training
             (self.source_pre (some false)
               (self.target_to_source training (self.target_pre training x))))) ∧
    self.call x dest training = .error "dest can only be either source or target" := by
  refine ⟨rfl, ?_, ?_⟩
  · simp [CycleGAN.call]
  · simp [CycleGAN.call, h1, h2]

/-- Closed instance of c6_cyclegan_call at the identity components with its
dest hypotheses discharged. -/
theorem c6_cyclegan_call_witness :
    ("middle" : String) ≠ "source" ∧ ("middle" : String) ≠ "target" ∧
    ((CycleGAN.mk idNet idNet idNet idNet idNet idNet).call [1, 2] "target" none =
      .ok ([1, 2], [1, 2], [1, 2], [1, 2]) ∧
     (CycleGAN.mk idNet idNet idNet idNet idNet idNet).call [1, 2] "source" none =
      .ok ([1, 2], [1, 2], [1, 2], [1, 2]) ∧
     (CycleGAN.mk idNet idNet idNet idNet idNet idNet).call [1, 2] "middle" none =
      .error "dest can only be either source or target") :=
  ⟨by decide, by decide,
    c6_cyclegan_call (CycleGAN.mk idNet idNet idNet idNet idNet idNet)
      [1, 2] none "middle" (by decide) (by decide)⟩

end Models

namespace LoadDatasets

/-- tfSlice2 from the origin at nonnegative sizes in both dimensions is a
take of the rows mapped over a take of the columns. -/
theorem tfSlice2_take_take (t : Tensor2) (a b : ℕ) :
    Models.tfSlice2 t 0 0 ((a : ℕ) : Int) ((b : ℕ) : Int) =
      (t.take a).map (fun r => r.take b) := by
  unfold Models.tfSlice2
  rw [if_neg (by omega)]
  simp only [List.drop_zero, Int.toNat_natCast]
  refine List.map_congr_left ?_
  intro r _
  rw [if_neg (by omega)]

/-- Mapping a take of the common row length over a tensor whose rows all
have that length changes nothing. -/
theorem map_take_shape1 (t : Tensor2) (c : ℕ) (h : ∀ r ∈ t, r.length = c) :
    t.map (fun r => r.take c) = t := by
  calc t.map (fun r => r.take c) = t.map (fun r => r) :=
        List.map_congr_left (fun r hr => by rw [← h r hr]; exact List.take_length r)
    _ = t := by simp

/-- Taking rows keeps the common row length as long as some row remains. -/
theorem shape1_take_ne_nil (t : Tensor2) (n : ℕ) (h : t.take n ≠ []) :
    shape1 (t.take n) = shape1 t := by
  cases t with
  | nil => simp at h
  | cons r rs =>
    cases n with
    | zero => simp at h
    | succ m => simp [shape1, List.take_succ_cons]

/-- C7: for a rectangular example x, a nonzero trim_time_steps flag keeps
the earliest min(time_steps, trim_time_steps) rows, a nonzero
feature_subset flag keeps the first min(features, feature_subset) entries
of each remaining row, a zero flag leaves that dimension unchanged, and the
label tensor y is never modified. -/
theorem c7_parse_trimming (trim_time_steps feature_subset : ℕ)
    (x : Tensor2) (y : Tensor1) (h : Rect x) :
    parse_example_function trim_time_steps feature_subset x y =
      ((x.take (if trim_time_steps = 0 then x.length
          else min x.length trim_time_steps)).map
        (fun r => r.take (if feature_subset = 0 then shape1 x
          else min (shape1 x) feature_subset)), y) := by
  have hsub : ∀ n, ∀ r ∈ x.take n, r.length = shape1 x :=
    fun n r hr => h r (List.take_subset n x hr)
  have hx1 : (if trim_time_steps ≠ 0 then
      Models.tfSlice2 x 0 0 ((min (shape0 x) trim_time_steps : ℕ) : Int)
        ((shape1 x : ℕ) : Int) else x)
      = x.take (if trim_time_steps = 0 then x.length
          else min x.length trim_time_steps) := by
    by_cases ht : trim_time_steps = 0
    · simp [ht, List.take_length]
    · rw [if_pos ht, if_neg ht, tfSlice2_take_take,
        map_take_shape1 _ _ (hsub _)]
      rfl
  simp only [parse_example_function]
  rw [hx1]
  set T := (if trim_time_steps = 0 then x.length
    else min x.length trim_time_steps) with hT
  by_cases hf : feature_subset = 0
  · rw [if_neg (by simp [hf]), if_pos hf, map_take_shape1 _ _ (hsub _)]
  · rw [if_pos hf, if_neg hf, tfSlice2_take_take]
    simp only [shape0]
    rw [List.take_length]
    by_cases hempty : x.take T = []
    · rw [hempty]
      simp
    · rw [shape1_take_ne_nil _ _ hempty]

/-- Closed instance of c7_parse_trimming: both flags nonzero on a concrete
rectangular 2 by 3 example. -/
theorem c7_parse_trimming_witness :
    Rect [[1, 2, 3], [4, 5, 6]] ∧
    parse_example_function 1 2 [[1, 2, 3], [4, 5, 6]] [9] =
      ((([[1, 2, 3], [4, 5, 6]] : Tensor2).take (if (1 : ℕ) = 0 then
          ([[1, 2, 3], [4, 5, 6]] : Tensor2).length
          else min ([[1, 2, 3], [4, 5, 6]] : Tensor2).length 1)).map
        (fun r => r.take (if (2 : ℕ) = 0 then shape1 [[1, 2, 3], [4, 5, 6]]
          else min (shape1 [[1, 2, 3], [4, 5, 6]]) 2)), [9]) :=
  ⟨by decide, c7_parse_trimming 1 2 [[1, 2, 3], [4, 5, 6]] [9] (by decide)⟩

/-- C8: with target = None, load_da always fails: the unconditional
`target in valid_names` assertion is false for None (valid_names is a list
of strings), so no pair is ever returned, whichever branch the earlier
source checks take. -/
theorem c8_load_da_requires_target
    (registry : String → Option DatasetInfo)
    (tfrecord_filename : String → String → String)
    (path_exists : String → Bool)
    (has_map_to_source has_map_to_target : String → Bool)
    (valid_names : List String) (dataset sources : String)
    (test : Bool) (config : Config) :
    ∃ e, load_da registry tfrecord_filename path_exists has_map_to_source
      has_map_to_target valid_names dataset sources none test config =
        .error e := by
  unfold load_da
  by_cases hs : ((sources.splitOn ",").map (fun x => dataset ++ "_" ++ x)).all
      (fun s => valid_names.contains s) = true
  · refine ⟨"unknown target domain", ?_⟩
    rw [if_neg (not_not_intro hs), if_pos (by simp [optMem])]
  · refine ⟨"unknown source domain", ?_⟩
    rw [if_pos hs]

/-- C9: load_tfrecords returns None, never an empty pipeline, on an empty
filename list; load's _path yields the empty list when the tfrecord file
does not exist; and a Dataset constructed from empty train and test
filename lists carries None in train, train_evaluation and
test_evaluation. -/
theorem c9_missing_files_give_none (config : Config) (batch_size : ℕ)
    (count evaluation : Bool) :
    load_tfrecords config [] batch_size count evaluation = none ∧
    load_dataset config [] [] = (none, none, none) ∧
    (∀ path_exists filename, path_exists ("datasets/" ++ filename) = false →
      load_path path_exists filename = []) ∧
    (∀ has_map_to_source has_map_to_target num_classes class_labels
        num_domains invert_name d,
      mkDataset has_map_to_source has_map_to_target num_classes class_labels
          num_domains [] [] invert_name config = .ok d →
      d.train = none ∧ d.train_evaluation = none ∧
        d.test_evaluation = none) := by
  refine ⟨rfl, rfl, ?_, ?_⟩
  · intro path_exists filename hpe
    unfold load_path
    simp [hpe]
  · intro hms hmt num_classes class_labels num_domains invert_name d hd
    unfold mkDataset at hd
    split_ifs at hd with h1 h2 h3
    simp only [Except.ok.injEq] at hd
    rw [← hd]
    exact ⟨rfl, rfl, rfl⟩

/-- Closed instance of c9_missing_files_give_none with its implications
discharged at a missing file and a concretely constructed dataset. -/
theorem c9_missing_files_witness :
    ((fun _ : String => false) ("datasets/" ++ "x.tfrecord") = false ∧
      load_path (fun _ => false) "x.tfrecord" = []) ∧
    (mkDataset (fun _ => true) (fun _ => true) 1 ["a"] 1 [] [] none
        default_config =
      .ok ⟨none, 1, ["a"], 1, default_config, none, none, none⟩ ∧
     ((⟨none, 1, ["a"], 1, default_config, none, none, none⟩ : Dataset).train = none ∧
      (⟨none, 1, ["a"], 1, default_config, none, none, none⟩ : Dataset).train_evaluation = none ∧
      (⟨none, 1, ["a"], 1, default_config, none, none, none⟩ : Dataset).test_evaluation = none)) :=
  ⟨⟨rfl, (c9_missing_files_give_none default_config 0 false false).2.2.1
      (fun _ => false) "x.tfrecord" rfl⟩,
   ⟨rfl, (c9_missing_files_give_none default_config 0 false false).2.2.2
      (fun _ => true) (fun _ => true) 1 ["a"] 1 none
      ⟨none, 1, ["a"], 1, default_config, none, none, none⟩ rfl⟩⟩

/-- Python list.index of a present element is the first index, returned as
some. -/
theorem indexOf?_of_mem (l : List String) (a : String) (h : a ∈ l) :
    l.indexOf? a = some (l.indexOf a) := by
  cases hio : l.indexOf? a with
  | none => exact absurd (List.indexOf?_eq_none_iff.mp hio a h) (by simp)
  | some j =>
    have he := List.indexOf_eq_indexOf? a l
    rw [hio] at he
    rw [he]

/-- C10: for a label present in class_labels,
int_to_label (label_to_int label) gives the label back; and with pairwise
distinct labels and the constructor-enforced num_classes = len(class_labels),
label_to_int (int_to_label i) gives i back for every i below num_classes. -/
theorem c10_label_round_trip (d : Dataset) :
    (∀ label_name ∈ d.class_labels, ∃ j,
      d.label_to_int label_name = some j ∧
        d.int_to_label j = some label_name) ∧
    (d.num_classes = d.class_labels.length → d.class_labels.Nodup →
      ∀ i < d.num_classes, ∃ s,
        d.int_to_label i = some s ∧ d.label_to_int s = some i) := by
  constructor
  · intro label_name hmem
    refine ⟨d.class_labels.indexOf label_name,
      indexOf?_of_mem _ _ hmem, ?_⟩
    show d.class_labels.get? (d.class_labels.indexOf label_name) =
      some label_name
    rw [List.get?_eq_getElem?]
    exact List.getElem?_indexOf hmem
  · intro hlen hnodup i hi
    have hi2 : i < d.class_labels.length := by rw [← hlen]; exact hi
    refine ⟨d.class_labels[i], ?_, ?_⟩
    · show d.class_labels.get? i = some d.class_labels[i]
      rw [List.get?_eq_getElem?, List.getElem?_eq_getElem hi2]
    · show d.class_labels.indexOf? d.class_labels[i] = some i
      have h1 : d.class_labels.indexOf d.class_labels[i] = i :=
        List.indexOf_getElem hnodup i hi2
      rw [indexOf?_of_mem _ _ (List.getElem_mem hi2), h1]

/-- Closed instance of c10_label_round_trip on a concrete two-class
dataset, all hypotheses discharged. -/
theorem c10_label_round_trip_witness :
    ("b" ∈ sample_dataset.class_labels ∧ ∃ j,
      sample_dataset.label_to_int "b" = some j ∧
        sample_dataset.int_to_label j = some "b") ∧
    (sample_dataset.num_classes = sample_dataset.class_labels.length ∧
     sample_dataset.class_labels.Nodup ∧
     0 < sample_dataset.num_classes ∧
     ∃ s, sample_dataset.int_to_label 0 = some s ∧
       sample_dataset.label_to_int s = some 0) :=
  ⟨⟨by decide, (c10_label_round_trip sample_dataset).1 "b" (by decide)⟩,
   ⟨rfl, by decide, by decide,
    (c10_label_round_trip sample_dataset).2 rfl (by decide) 0 (by decide)⟩⟩

end LoadDatasets

end Codats
